import Mathlib

/-!
Shallow embedding of `src/search.py` (a web-search / page-extraction /
deep-research tool server).

Modelling choices:
* HTML parsing (BeautifulSoup) is an external capability.  A parsed page is a
  `Doc`: the document-order list of its elements, each carrying its tag, its
  optional `class` attribute, its optional `href` attribute and its text
  content.  `find_all(tag)` is a document-order filter, which matches
  BeautifulSoup's traversal order.
* Network calls are oracles: a search response is passed in as a
  `SerperResponse` value and a page fetch as a function `String → String`
  mapping the URL to the string `fetch_webpage_content` returned for it
  (either the body, or the `"Error fetching page: ..."` string the code
  builds on a transport failure).
* Python string primitives are embedded over `String.data` (`List Char`), so
  `len`, slicing, `strip`, `lower`, `upper`, `split` and `startswith` are
  the corresponding code-point-level operations.
-/

set_option maxRecDepth 100000

/-- A code point count, matching Python `len` on `str`. -/
def pyLen (s : String) : Nat := s.data.length

/-- Python slicing `s[:n]`. -/
def pyTake (s : String) (n : Nat) : String := ⟨s.data.take n⟩

/-- Python `s.startswith(p)`. -/
def pyStartsWith (s p : String) : Bool := p.data.isPrefixOf s.data

/-- Python `s.strip()` (whitespace from both ends). -/
def pyStrip (s : String) : String :=
  ⟨((s.data.dropWhile Char.isWhitespace).reverse.dropWhile Char.isWhitespace).reverse⟩

/-- Python `s.lower()`. -/
def pyLower (s : String) : String := ⟨s.data.map Char.toLower⟩

/-- Python `s.upper()`. -/
def pyUpper (s : String) : String := ⟨s.data.map Char.toUpper⟩

/-- Whether `pat` occurs as a contiguous sublist of `l` (Python `pat in s`). -/
def containsSub (l pat : List Char) : Bool :=
  match l with
  | [] => pat.isEmpty
  | _ :: t => pat.isPrefixOf l || containsSub t pat

/-- Python `pat in s` on strings. -/
def strContains (s pat : String) : Bool := containsSub s.data pat.data

/-- Split a character list on a separator character, Python `s.split(c)`
    semantics (consecutive separators give empty pieces, `"" → [""]`). -/
def splitCharList (c : Char) : List Char → List (List Char)
  | [] => [[]]
  | x :: t =>
    let r := splitCharList c t
    if x == c then [] :: r
    else
      match r with
      | [] => [[x]]
      | h :: t2 => (x :: h) :: t2

/-- Python `s.split(newline)`. -/
def pySplitNL (s : String) : List String := (splitCharList '\n' s.data).map (fun l => ⟨l⟩)

/-- One element of a parsed HTML document: tag name, optional class
    attribute, optional href attribute, and text content. -/
structure Element where
  tag : String
  classAttr : Option String
  href : Option String
  text : String
deriving DecidableEq

/-- A parsed page: its elements in document order. -/
abbrev Doc := List Element

/-- `soup(["script", "style"])` removal: the document with script and style
    elements extracted, as done at the top of `fetch_and_parse_webpage` and
    inside `deep_research`. -/
def cleanDoc (doc : Doc) : Doc :=
  doc.filter (fun e => e.tag != "script" && e.tag != "style")

/-- BeautifulSoup `soup.find_all(tag)`: the elements with that tag, in
    document order. -/
def find_all_tag (soup : Doc) (tag : String) : Doc :=
  soup.filter (fun e => e.tag == tag)

/-- `elem.get_text(strip=True)` for a single element of the flat model. -/
def elemText (e : Element) : String := pyStrip e.text

/-- The stripped, non-empty text fragments of the document, in document
    order: the pieces `soup.get_text(separator, strip=True)` joins. -/
def getTextLines (doc : Doc) : List String :=
  (doc.map (fun e => pyStrip e.text)).filter (fun s => s != "")

/-- `soup.get_text(separator=sep, strip=True)`. -/
def getText (sep : String) (doc : Doc) : String :=
  String.intercalate sep (getTextLines doc)

/-- The `extraction_type == "full_text"` branch of
    `fetch_and_parse_webpage`: all page text, truncated to 10000 characters
    with an appended `"..."` when longer. -/
def fullTextExtract (soup : Doc) : String :=
  let text := getText "\n" soup
  if pyLen text > 10000 then pyTake text 10000 ++ "..." else text

/-- The class-attribute test of the main-content heuristic:
    `lambda c: c and ('content' in c.lower() or 'article' in c.lower())`. -/
def classTextMatch (c : Option String) : Bool :=
  match c with
  | none => false
  | some s => s != "" && (strContains (pyLower s) "content" || strContains (pyLower s) "article")

/-- The element filter of
    `soup.find_all(['article', 'main', 'div'], class_=...)`. -/
def classMatch (e : Element) : Bool :=
  (e.tag == "article" || e.tag == "main" || e.tag == "div") && classTextMatch e.classAttr

/-- The `extraction_type == "main_content"` branch of
    `fetch_and_parse_webpage`. -/
def mainContentExtract (soup : Doc) : String :=
  let mains := soup.filter classMatch
  if mains.isEmpty then
    "Couldn't identify main content. Try using full_text extraction instead."
  else
    let mc := String.intercalate "\n\n" (mains.map elemText)
    if pyLen mc > 10000 then pyTake mc 10000 ++ "..." else mc

/-- The heading lines the `extraction_type == "headings"` branch collects:
    `for tag in ['h1', 'h2', 'h3']: for heading in soup.find_all(tag):
    headings.append(f"(tag upper): (text)")`. -/
def headingsOf (soup : Doc) : List String :=
  (["h1", "h2", "h3"].map (fun t =>
    (find_all_tag soup t).map (fun e => pyUpper t ++ ": " ++ pyStrip e.text))).flatten

/-- The formatted line of one heading element. -/
def headingLine (e : Element) : String := pyUpper e.tag ++ ": " ++ pyStrip e.text

/-- The `extraction_type == "headings"` branch of `fetch_and_parse_webpage`. -/
def headingsExtract (soup : Doc) : String :=
  let hs := headingsOf soup
  if hs.isEmpty then "No headings found on the page." else String.intercalate "\n" hs

/-- The anchors the `extraction_type == "links"` branch scans:
    `soup.find_all('a', href=True)`. -/
def anchorsOf (soup : Doc) : List Element :=
  soup.filter (fun e => e.tag == "a" && e.href.isSome)

/-- One formatted link entry: anchor text (or `"[No text]"`) and href. -/
def linkLine (e : Element) : String :=
  (if pyStrip e.text == "" then "[No text]" else pyStrip e.text) ++ ": " ++ e.href.getD ""

/-- The full link-entry list the links branch builds before capping. -/
def linksOf (soup : Doc) : List String := (anchorsOf soup).map linkLine

/-- The `extraction_type == "links"` branch of `fetch_and_parse_webpage`:
    `"\n".join(links[:100]) if links else "No links found on the page."`. -/
def linksExtract (soup : Doc) : String :=
  if (linksOf soup).isEmpty then "No links found on the page."
  else String.intercalate "\n" ((linksOf soup).take 100)

/-- `fetch_and_parse_webpage`, with the network fetch factored out:
    `html_content` is the string `fetch_webpage_content(url)` returned and
    `parse` models BeautifulSoup.  The code first short-circuits on an
    `"Error"`-prefixed fetch result, then removes script/style elements and
    dispatches on `extraction_type`. -/
def fetch_and_parse_webpage (parse : String → Doc) (html_content : String)
    (extraction_type : String) : String :=
  if pyStartsWith html_content "Error" then html_content
  else
    let soup := cleanDoc (parse html_content)
    if extraction_type == "full_text" then fullTextExtract soup
    else if extraction_type == "main_content" then mainContentExtract soup
    else if extraction_type == "headings" then headingsExtract soup
    else if extraction_type == "links" then linksExtract soup
    else "Invalid extraction_type: " ++ extraction_type ++
      ". Valid options are 'full_text', 'main_content', 'headings', or 'links'."

/-- One provider search result record; fields are `Option` because the code
    reads them with `result.get(key, default)`. -/
structure SResult where
  title : Option String
  link : Option String
  snippet : Option String
deriving DecidableEq

/-- The provider response as the code inspects it: an optional `"error"`
    entry (present when `make_search_request` caught a transport failure)
    and an optional `"organic"` list. -/
structure SerperResponse where
  error : Option String
  organic : Option (List SResult)

/-- `format_search_result`: the triple-quoted f-string of the code, with its
    leading and trailing newline. -/
def format_search_result (r : SResult) : String :=
  "\nTitle: " ++ r.title.getD "No title" ++
  "\nURL: " ++ r.link.getD "No link" ++
  "\nSnippet: " ++ r.snippet.getD "No description available" ++ "\n"

/-- `web_search`, with the provider response passed in as an oracle. -/
def web_search (resp : SerperResponse) (num_results : Nat) : String :=
  match resp.error with
  | some e => "Error performing search: " ++ e
  | none =>
    match resp.organic with
    | none => "No results found for your query."
    | some organic =>
      if organic.isEmpty then "No results found for your query."
      else String.intercalate "\n---\n" ((organic.take num_results).map format_search_result)

/-- The heading lines `deep_research` collects for one source: same
    tag-by-tag scan as the headings branch, but keeping only stripped texts
    longer than 3 characters and prefixing `"- "`. -/
def deepHeadings (soup : Doc) : List String :=
  (["h1", "h2", "h3"].map (fun t =>
    (find_all_tag soup t).filterMap (fun e =>
      let ht := pyStrip e.text
      if ht != "" && pyLen ht > 3 then some ("- " ++ ht) else none))).flatten

/-- The Key Points block of one successfully fetched source: the first 10
    heading lines and a blank line, or the explicit no-headings line and a
    blank line. -/
def keyPointsLines (soup : Doc) : List String :=
  if (deepHeadings soup).isEmpty then ["- No clear headings found on this page.", ""]
  else (deepHeadings soup).take 10 ++ [""]

/-- The Summary of Content line of one successfully fetched source: from the
    first matching main element, its first 3 newline-split segments joined
    by spaces and cut at 500 characters with `"..."` appended; otherwise the
    whole page text cut at 500 characters with `"..."` appended. -/
def contentSummary (soup : Doc) : String :=
  match soup.filter classMatch with
  | [] => pyTake (getText " " soup) 500 ++ "..."
  | e :: _ =>
    let main_text := elemText e
    pyTake (String.intercalate " " ((pySplitNL main_text).take 3)) 500 ++ "..."

/-- The lines one iteration of the deep-dive loop of `deep_research`
    appends for the result at 0-based index `i`. -/
def sourceSection (parse : String → Doc) (fetch : String → String) (i : Nat)
    (r : SResult) : List String :=
  let title := r.title.getD "No title"
  let url := r.link.getD "No link"
  let html := fetch url
  if pyStartsWith html "Error" then
    ["### Source " ++ toString (i + 1) ++ ": " ++ title,
     "URL: " ++ url ++ "\n",
     "Could not access this page: " ++ html ++ "\n"]
  else
    let soup := cleanDoc (parse html)
    ["### Source " ++ toString (i + 1) ++ ": " ++ title,
     "URL: " ++ url ++ "\n",
     "#### Key Points:\n"]
    ++ keyPointsLines soup
    ++ ["#### Summary of Content:\n", contentSummary soup, "\n---\n"]

/-- The three overview lines of one search result at 0-based index `i`. -/
def overviewEntry (i : Nat) (r : SResult) : List String :=
  [toString (i + 1) ++ ". **" ++ r.title.getD "No title" ++ "**",
   "   URL: " ++ r.link.getD "No link",
   "   Summary: " ++ r.snippet.getD "No description" ++ "\n"]

/-- The overview entries for a result list, numbering from index `k`
    (the `enumerate` of the code). -/
def overviewEntriesFrom : Nat → List SResult → List (List String)
  | _, [] => []
  | k, r :: rs => overviewEntry k r :: overviewEntriesFrom (k + 1) rs

/-- The overview entries of `deep_research`: one per result of
    `organic[:depth + 2]`, in provider order. -/
def overviewEntries (organic : List SResult) (depth : Nat) : List (List String) :=
  overviewEntriesFrom 0 (organic.take (depth + 2))

/-- The deep-dive sections for a result list, numbering from index `k`. -/
def detailSectionsFrom (parse : String → Doc) (fetch : String → String) :
    Nat → List SResult → List (List String)
  | _, [] => []
  | k, r :: rs =>
    sourceSection parse fetch k r :: detailSectionsFrom parse fetch (k + 1) rs

/-- The deep-dive sections of `deep_research`: one per result of
    `organic[:depth]`, in provider order. -/
def detailSections (parse : String → Doc) (fetch : String → String)
    (organic : List SResult) (depth : Nat) : List (List String) :=
  detailSectionsFrom parse fetch 0 (organic.take depth)

/-- The closing summary line of `deep_research`. -/
def researchFooter (topic : String) (depth : Nat) : String :=
  "This research explored " ++ toString depth ++ " sources on the topic '" ++ topic ++
  "'. To further explore this topic, consider reading the full content of the most relevant sources or refining your search terms."

/-- Every line of the report `deep_research` builds on the success path,
    in order, before the final newline join. -/
def reportLines (parse : String → Doc) (fetch : String → String)
    (organic : List SResult) (topic : String) (depth : Nat) : List String :=
  ("# Deep Research: " ++ topic ++ "\n")
  :: "## Search Results Overview\n"
  :: ((overviewEntries organic depth).flatten
      ++ "## Detailed Content Analysis\n"
      :: ((detailSections parse fetch organic depth).flatten
          ++ ["## Research Summary", researchFooter topic depth]))

/-- `deep_research`, with the provider response and the page fetches passed
    in as oracles. -/
def deep_research (parse : String → Doc) (fetch : String → String)
    (resp : SerperResponse) (topic : String) (depth : Nat) : String :=
  match resp.error with
  | some e => "Error performing search: " ++ e
  | none =>
    match resp.organic with
    | none => "No results found for your topic."
    | some organic =>
      if organic.isEmpty then "No results found for your topic."
      else String.intercalate "\n" (reportLines parse fetch organic topic depth)

/-! ### Shared helper lemmas -/

theorem string_data_append (s t : String) : (s ++ t).data = s.data ++ t.data := by
  cases s; cases t; rfl

theorem strLen_append (a b : String) : pyLen (a ++ b) = pyLen a + pyLen b := by
  simp [pyLen, string_data_append]

theorem pyTake_len (s : String) (n : Nat) : pyLen (pyTake s n) = min n (pyLen s) := by
  simp [pyLen, pyTake]

theorem error_msg_ne_of_head (e t : String) (h : t.data.head? ≠ some 'E') :
    ("Error performing search: " ++ e) ≠ t := by
  intro he
  apply h
  rw [← he, string_data_append]
  rfl

/-- A trivial BeautifulSoup oracle used for concrete checks. -/
def parseNothing : String → Doc := fun _ => []

/-- A page-fetch oracle whose every fetch fails. -/
def fetchAlwaysError : String → String := fun _ => "Error down"

/-! ### Claim C5 -/

/-- Claim C5: on any markup, the full-text extraction branch returns at most
    10003 characters — the 10000-character cut plus the 3-character ellipsis
    marker, the marker appended exactly when the untruncated page text
    exceeds 10000 characters — and every text fragment entering the output
    comes from an element that is neither a script nor a style element. -/
theorem fullText_bounded_and_clean (doc : Doc) :
    pyLen (fullTextExtract (cleanDoc doc)) ≤ 10003 ∧
    (10000 < pyLen (getText "\n" (cleanDoc doc)) →
      fullTextExtract (cleanDoc doc) = pyTake (getText "\n" (cleanDoc doc)) 10000 ++ "...") ∧
    (pyLen (getText "\n" (cleanDoc doc)) ≤ 10000 →
      fullTextExtract (cleanDoc doc) = getText "\n" (cleanDoc doc)) ∧
    ∀ l ∈ getTextLines (cleanDoc doc),
      ∃ e, e ∈ doc ∧ ¬(e.tag = "script" ∨ e.tag = "style") ∧ l = pyStrip e.text := by
  refine ⟨?_, ?_, ?_, ?_⟩
  · simp only [fullTextExtract]
    split
    · rw [strLen_append, pyTake_len]
      have h3 : pyLen "..." = 3 := rfl
      omega
    · omega
  · intro h
    simp only [fullTextExtract]
    rw [if_pos h]
  · intro h
    simp only [fullTextExtract]
    rw [if_neg (by omega)]
  · intro l hl
    simp only [getTextLines] at hl
    rw [List.mem_filter] at hl
    obtain ⟨hm, _⟩ := hl
    rw [List.mem_map] at hm
    obtain ⟨e, he, rfl⟩ := hm
    simp only [cleanDoc] at he
    rw [List.mem_filter] at he
    obtain ⟨hed, ht⟩ := he
    refine ⟨e, hed, ?_, rfl⟩
    simp only [Bool.and_eq_true, bne_iff_ne, ne_eq] at ht
    tauto

/-- A small concrete page for the C5 witness: one paragraph and one script
    element. -/
def c5doc : Doc :=
  [⟨"p", none, none, " hi "⟩, ⟨"script", none, none, "var x = 1;"⟩]

/-- Witness for C5 at a concrete page: the text is short, so the extraction
    returns it untruncated, and the script text is gone. -/
theorem fullText_bounded_and_clean_witness :
    pyLen (getText "\n" (cleanDoc c5doc)) ≤ 10000 ∧
    fullTextExtract (cleanDoc c5doc) = "hi" :=
  ⟨by decide, ((fullText_bounded_and_clean c5doc).2.2.1 (by decide)).trans (by decide)⟩

/-! ### Claim C7 -/

/-- Counterexample to C7 as stated: when the markup itself starts with
    `"Error"` (a page body the fetch layer cannot tell apart from its own
    failure marker), `fetch_and_parse_webpage` returns the markup unchanged
    even for an invalid extraction type, not the invalid-mode message. -/
theorem invalid_mode_error_prefix_cex :
    fetch_and_parse_webpage parseNothing "Error" "bogus_mode" = "Error" ∧
    fetch_and_parse_webpage parseNothing "Error" "bogus_mode" ≠
      "Invalid extraction_type: bogus_mode. Valid options are 'full_text', 'main_content', 'headings', or 'links'." :=
  ⟨rfl, by decide⟩

/-- Claim C7 (amended): for every markup input that is not treated as a
    failed fetch (it does not start with `"Error"`) and every extraction
    type other than the four valid ones, `fetch_and_parse_webpage` returns
    the literal invalid-mode message naming all four valid mode names. -/
theorem invalid_mode_message (parse : String → Doc) (markup ty : String)
    (hm : pyStartsWith markup "Error" = false)
    (h1 : ty ≠ "full_text") (h2 : ty ≠ "main_content")
    (h3 : ty ≠ "headings") (h4 : ty ≠ "links") :
    fetch_and_parse_webpage parse markup ty =
      "Invalid extraction_type: " ++ ty ++
      ". Valid options are 'full_text', 'main_content', 'headings', or 'links'." := by
  simp [fetch_and_parse_webpage, hm, h1, h2, h3, h4]

/-- Witness for the amended C7 at a concrete markup and mode. -/
theorem invalid_mode_message_witness :
    pyStartsWith "<p>hello</p>" "Error" = false ∧
    fetch_and_parse_webpage parseNothing "<p>hello</p>" "bogus_mode" =
      "Invalid extraction_type: bogus_mode. Valid options are 'full_text', 'main_content', 'headings', or 'links'." :=
  ⟨by decide,
   (invalid_mode_message parseNothing "<p>hello</p>" "bogus_mode" (by decide)
     (by decide) (by decide) (by decide) (by decide)).trans (by decide)⟩

/-! ### Claim C8 -/

/-- Claim C8: the links extraction keeps at most 100 entries — exactly the
    first 100 anchors carrying an href, in document order (the anchor scan
    is an order-preserving sublist of the page) — and, when any anchor
    exists, the returned string joins exactly those capped entries. -/
theorem links_capped (soup : Doc) :
    ((linksOf soup).take 100).length ≤ 100 ∧
    (linksOf soup).take 100 = ((anchorsOf soup).take 100).map linkLine ∧
    (anchorsOf soup).Sublist soup ∧
    ((linksOf soup).isEmpty = false →
      linksExtract soup = String.intercalate "\n" ((linksOf soup).take 100)) := by
  refine ⟨List.length_take_le .., ?_, List.filter_sublist soup, ?_⟩
  · simp [linksOf, List.map_take]
  · intro h
    simp [linksExtract, h]

/-- A concrete page with one anchor for the C8 witness. -/
def c8doc : Doc := [⟨"a", none, some "/home", "Home"⟩, ⟨"p", none, none, "body"⟩]

/-- Witness for C8 at a concrete page with a single link. -/
theorem links_capped_witness :
    (linksOf c8doc).isEmpty = false ∧
    linksExtract c8doc = "Home: /home" :=
  ⟨rfl, ((links_capped c8doc).2.2.2 rfl).trans (by decide)⟩

/-! ### Claim C1 -/

theorem find_all_tag_map_headingLine (soup : Doc) (t : String) :
    (find_all_tag soup t).map (fun e => pyUpper t ++ ": " ++ pyStrip e.text) =
      (find_all_tag soup t).map headingLine := by
  apply List.map_congr_left
  intro e he
  have ht : e.tag = t := by
    simp only [find_all_tag, List.mem_filter, beq_iff_eq] at he
    exact he.2
  simp [headingLine, ht]

theorem heading_count_partition (soup : Doc) :
    (find_all_tag soup "h1").length + (find_all_tag soup "h2").length +
      (find_all_tag soup "h3").length =
      (soup.filter (fun e => e.tag == "h1" || e.tag == "h2" || e.tag == "h3")).length := by
  induction soup with
  | nil => rfl
  | cons e rest ih =>
    simp only [find_all_tag, List.filter_cons] at *
    by_cases h1 : e.tag = "h1"
    · simp [h1]
      omega
    · by_cases h2 : e.tag = "h2"
      · simp [h1, h2]
        omega
      · by_cases h3 : e.tag = "h3"
        · simp [h1, h2, h3]
          omega
        · simp [h1, h2, h3]
          omega

/-- A markup where an `h2` precedes an `h1` in document order. -/
def h2BeforeH1Doc : Doc := [⟨"h2", none, none, "B"⟩, ⟨"h1", none, none, "A"⟩]

/-- Counterexample to C1 as stated: on a page whose `h2` precedes its `h1`,
    the headings branch emits the `H1` line first — the scan groups all
    `h1` elements before all `h2` elements instead of following document
    order across tags. -/
theorem headings_document_order_cex :
    h2BeforeH1Doc = [⟨"h2", none, none, "B"⟩, ⟨"h1", none, none, "A"⟩] ∧
    headingsOf (cleanDoc h2BeforeH1Doc) = ["H1: A", "H2: B"] ∧
    headingsExtract (cleanDoc h2BeforeH1Doc) = "H1: A\nH2: B" ∧
    headingsOf (cleanDoc h2BeforeH1Doc) ≠ ["H2: B", "H1: A"] :=
  ⟨rfl, by decide, by decide, by decide⟩

/-- Claim C1 (amended): the headings branch emits exactly one
    `"<TAG-UPPER>: <text>"` line per `h1`/`h2`/`h3` heading, grouped by tag
    level — all `H1` lines first, then all `H2` lines, then all `H3` lines —
    with the headings inside each tag group kept in document order. -/
theorem headings_grouped_by_tag (soup : Doc) :
    headingsOf soup =
      (find_all_tag soup "h1").map headingLine ++
      (find_all_tag soup "h2").map headingLine ++
      (find_all_tag soup "h3").map headingLine ∧
    (headingsOf soup).length =
      (soup.filter (fun e => e.tag == "h1" || e.tag == "h2" || e.tag == "h3")).length ∧
    (find_all_tag soup "h1").Sublist soup ∧
    (find_all_tag soup "h2").Sublist soup ∧
    (find_all_tag soup "h3").Sublist soup := by
  have hmain : headingsOf soup =
      (find_all_tag soup "h1").map headingLine ++
      (find_all_tag soup "h2").map headingLine ++
      (find_all_tag soup "h3").map headingLine := by
    simp only [headingsOf, List.map_cons, List.map_nil, List.flatten_cons, List.flatten_nil,
      List.append_nil, find_all_tag_map_headingLine, List.append_assoc]
  refine ⟨hmain, ?_, List.filter_sublist soup, List.filter_sublist soup, List.filter_sublist soup⟩
  rw [hmain]
  simp only [List.length_append, List.length_map]
  rw [← heading_count_partition soup]

/-! ### Claim C3 -/

theorem detailSectionsFrom_length (parse : String → Doc) (fetch : String → String)
    (k : Nat) (l : List SResult) :
    (detailSectionsFrom parse fetch k l).length = l.length := by
  induction l generalizing k with
  | nil => rfl
  | cons r rs ih => simp [detailSectionsFrom, ih]

theorem overviewEntriesFrom_length (k : Nat) (l : List SResult) :
    (overviewEntriesFrom k l).length = l.length := by
  induction l generalizing k with
  | nil => rfl
  | cons r rs ih => simp [overviewEntriesFrom, ih]

theorem detailSections_length (parse : String → Doc) (fetch : String → String)
    (organic : List SResult) (depth : Nat) :
    (detailSections parse fetch organic depth).length = min depth organic.length := by
  simp [detailSections, detailSectionsFrom_length, List.length_take]

theorem overviewEntries_length (organic : List SResult) (depth : Nat) :
    (overviewEntries organic depth).length = min (depth + 2) organic.length := by
  simp [overviewEntries, overviewEntriesFrom_length, List.length_take]

theorem detailSectionsFrom_getElem? (parse : String → Doc) (fetch : String → String)
    (k i : Nat) (l : List SResult) :
    (detailSectionsFrom parse fetch k l)[i]? =
      (l[i]?).map (fun r => sourceSection parse fetch (k + i) r) := by
  induction l generalizing k i with
  | nil => simp [detailSectionsFrom]
  | cons r rs ih =>
    cases i with
    | zero => simp [detailSectionsFrom]
    | succ j =>
      simp only [detailSectionsFrom, List.getElem?_cons_succ, ih]
      have : k + 1 + j = k + (j + 1) := by omega
      rw [this]

/-- Claim C3: for depth ≥ 1 and a provider response with n ≥ 1 organic
    results, `deep_research` builds exactly `min depth n` detailed-analysis
    sections and exactly `min (depth + 2) n` overview entries, the overview
    count is at least the deep-dive count, and the i-th detailed section is
    built from the i-th provider result (provider order). -/
theorem research_counts (parse : String → Doc) (fetch : String → String)
    (organic : List SResult) (depth : Nat)
    (hd : 1 ≤ depth) (hn : 1 ≤ organic.length) :
    (detailSections parse fetch organic depth).length = min depth organic.length ∧
    (overviewEntries organic depth).length = min (depth + 2) organic.length ∧
    (detailSections parse fetch organic depth).length ≤
      (overviewEntries organic depth).length ∧
    ∀ i r, i < depth → organic[i]? = some r →
      (detailSections parse fetch organic depth)[i]? =
        some (sourceSection parse fetch i r) := by
  refine ⟨detailSections_length .., overviewEntries_length .., ?_, ?_⟩
  · rw [detailSections_length, overviewEntries_length]
    omega
  · intro i r hi hr
    simp only [detailSections, detailSectionsFrom_getElem?]
    rw [List.getElem?_take_of_lt hi, hr]
    simp

/-- A concrete search result used by several concrete checks. -/
def wr0 : SResult := ⟨some "T0", some "u0", some "s0"⟩

/-- Witness for C3 at one result and depth 1. -/
theorem research_counts_witness :
    (detailSections parseNothing fetchAlwaysError [wr0] 1).length = 1 ∧
    (overviewEntries [wr0] 1).length = 1 :=
  ⟨((research_counts parseNothing fetchAlwaysError [wr0] 1 (by decide) (by decide)).1).trans
     (by decide),
   ((research_counts parseNothing fetchAlwaysError [wr0] 1 (by decide) (by decide)).2.1).trans
     (by decide)⟩

/-! ### Claim C2 -/

/-- Counterexample to C2 as stated: with depth 3 but only one available
    result, only one detailed-analysis section is produced, yet the closing
    summary line of the report says three sources were explored — the footer
    states the requested depth, not `min depth available`. -/
theorem footer_overstates_cex :
    (detailSections parseNothing fetchAlwaysError [wr0] 3).length = 1 ∧
    researchFooter "t" 3 =
      "This research explored 3 sources on the topic 't'. To further explore this topic, consider reading the full content of the most relevant sources or refining your search terms." ∧
    researchFooter "t" 3 ≠
      "This research explored 1 sources on the topic 't'. To further explore this topic, consider reading the full content of the most relevant sources or refining your search terms." ∧
    deep_research parseNothing fetchAlwaysError ⟨none, some [wr0]⟩ "t" 3 =
      String.intercalate "\n" (reportLines parseNothing fetchAlwaysError [wr0] "t" 3) :=
  ⟨by decide, by decide, by decide, rfl⟩

/-- Claim C2 (amended): the closing summary line of `deep_research` states
    the requested depth together with the original topic; this equals the
    number of detailed-analysis sections actually produced whenever the
    provider returned at least `depth` results. -/
theorem footer_states_requested_depth (parse : String → Doc) (fetch : String → String)
    (organic : List SResult) (topic : String) (depth : Nat)
    (h : depth ≤ organic.length) :
    researchFooter topic depth ∈ reportLines parse fetch organic topic depth ∧
    researchFooter topic depth =
      "This research explored " ++ toString depth ++ " sources on the topic '" ++ topic ++
      "'. To further explore this topic, consider reading the full content of the most relevant sources or refining your search terms." ∧
    (detailSections parse fetch organic depth).length = depth := by
  refine ⟨?_, rfl, ?_⟩
  · simp [reportLines]
  · rw [detailSections_length]
    omega

/-- Witness for the amended C2: one result explored at depth 1. -/
theorem footer_states_requested_depth_witness :
    researchFooter "t" 1 ∈ reportLines parseNothing fetchAlwaysError [wr0] "t" 1 ∧
    (detailSections parseNothing fetchAlwaysError [wr0] 1).length = 1 :=
  ⟨(footer_states_requested_depth parseNothing fetchAlwaysError [wr0] "t" 1 (by decide)).1,
   (footer_states_requested_depth parseNothing fetchAlwaysError [wr0] "t" 1 (by decide)).2.2⟩

/-! ### Claim C6 -/

/-- Claim C6: a transport error makes both `web_search` and `deep_research`
    return a single error line; a missing or empty `organic` list makes each
    return its single no-results message; the error line differs from both
    no-results messages for every cause string; and in every remaining case
    `deep_research` does not abort — it returns the joined report, whose
    first line is the report header. -/
theorem search_outcome_modes (parse : String → Doc) (fetch : String → String)
    (resp : SerperResponse) (topic : String) (depth num : Nat) :
    (∀ e, resp.error = some e →
      web_search resp num = "Error performing search: " ++ e ∧
      deep_research parse fetch resp topic depth = "Error performing search: " ++ e) ∧
    (resp.error = none → (resp.organic = none ∨ resp.organic = some []) →
      web_search resp num = "No results found for your query." ∧
      deep_research parse fetch resp topic depth = "No results found for your topic.") ∧
    (∀ e, ("Error performing search: " ++ e) ≠ "No results found for your query." ∧
      ("Error performing search: " ++ e) ≠ "No results found for your topic.") ∧
    (∀ organic, resp.error = none → resp.organic = some organic → organic ≠ [] →
      deep_research parse fetch resp topic depth =
        String.intercalate "\n" (reportLines parse fetch organic topic depth) ∧
      (reportLines parse fetch organic topic depth).head? =
        some ("# Deep Research: " ++ topic ++ "\n")) := by
  refine ⟨?_, ?_, ?_, ?_⟩
  · intro e he
    constructor
    · simp [web_search, he]
    · simp [deep_research, he]
  · intro he ho
    rcases ho with ho | ho
    · constructor
      · simp [web_search, he, ho]
      · simp [deep_research, he, ho]
    · constructor
      · simp [web_search, he, ho]
      · simp [deep_research, he, ho]
  · intro e
    exact ⟨error_msg_ne_of_head e _ (by decide), error_msg_ne_of_head e _ (by decide)⟩
  · intro organic he ho hne
    constructor
    · simp [deep_research, he, ho, hne]
    · rfl

/-- Witness for C6: the three outcomes at concrete responses. -/
theorem search_outcome_modes_witness :
    web_search ⟨some "boom", none⟩ 5 = "Error performing search: boom" ∧
    deep_research parseNothing fetchAlwaysError ⟨none, some []⟩ "t" 2 =
      "No results found for your topic." ∧
    deep_research parseNothing fetchAlwaysError ⟨none, some [wr0]⟩ "t" 2 =
      String.intercalate "\n" (reportLines parseNothing fetchAlwaysError [wr0] "t" 2) :=
  ⟨((search_outcome_modes parseNothing fetchAlwaysError ⟨some "boom", none⟩ "t" 2 5).1
      "boom" rfl).1,
   ((search_outcome_modes parseNothing fetchAlwaysError ⟨none, some []⟩ "t" 2 5).2.1
      rfl (Or.inr rfl)).2,
   ((search_outcome_modes parseNothing fetchAlwaysError ⟨none, some [wr0]⟩ "t" 2 5).2.2.2
      [wr0] rfl rfl (by decide)).1⟩

/-! ### Claim C4 -/

theorem mem_reportLines_of_mem_detail (parse : String → Doc) (fetch : String → String)
    (organic : List SResult) (topic : String) (depth : Nat) (x : String)
    (hx : ∃ s ∈ detailSections parse fetch organic depth, x ∈ s) :
    x ∈ reportLines parse fetch organic topic depth := by
  have h1 : x ∈ (detailSections parse fetch organic depth).flatten := List.mem_flatten.mpr hx
  unfold reportLines
  exact List.mem_cons_of_mem _ (List.mem_cons_of_mem _
    (List.mem_append_right _ (List.mem_cons_of_mem _ (List.mem_append_left _ h1))))

/-- Claim C4: when the first source's fetch fails and the second source's
    fetch succeeds, the report still carries the failing source's
    "could not access" line citing the failure string, and it still carries
    the succeeding source's Key Points block (its heading lines) and its
    content summary — one failing fetch never removes the other sources'
    sections. -/
theorem single_failure_resilience (parse : String → Doc) (fetch : String → String)
    (r0 r1 : SResult) (rest : List SResult) (topic : String) (depth : Nat)
    (hd : 2 ≤ depth)
    (hfail : pyStartsWith (fetch (r0.link.getD "No link")) "Error" = true)
    (hok : pyStartsWith (fetch (r1.link.getD "No link")) "Error" = false) :
    ("Could not access this page: " ++ fetch (r0.link.getD "No link") ++ "\n")
      ∈ reportLines parse fetch (r0 :: r1 :: rest) topic depth ∧
    "#### Key Points:\n" ∈ reportLines parse fetch (r0 :: r1 :: rest) topic depth ∧
    (∀ l ∈ keyPointsLines (cleanDoc (parse (fetch (r1.link.getD "No link")))),
      l ∈ reportLines parse fetch (r0 :: r1 :: rest) topic depth) ∧
    contentSummary (cleanDoc (parse (fetch (r1.link.getD "No link"))))
      ∈ reportLines parse fetch (r0 :: r1 :: rest) topic depth := by
  obtain ⟨k, rfl⟩ : ∃ k, depth = k + 2 := ⟨depth - 2, by omega⟩
  have htake : (r0 :: r1 :: rest).take (k + 2) = r0 :: r1 :: rest.take k := by
    simp [List.take_succ_cons]
  have hdet : detailSections parse fetch (r0 :: r1 :: rest) (k + 2) =
      sourceSection parse fetch 0 r0 :: sourceSection parse fetch 1 r1 ::
        detailSectionsFrom parse fetch 2 (rest.take k) := by
    rw [detailSections, htake]
    rfl
  have hS0 : sourceSection parse fetch 0 r0 =
      ["### Source 1: " ++ r0.title.getD "No title",
       "URL: " ++ r0.link.getD "No link" ++ "\n",
       "Could not access this page: " ++ fetch (r0.link.getD "No link") ++ "\n"] := by
    simp [sourceSection, hfail]
    congr 1
  have hS1 : sourceSection parse fetch 1 r1 =
      ["### Source 2: " ++ r1.title.getD "No title",
       "URL: " ++ r1.link.getD "No link" ++ "\n",
       "#### Key Points:\n"]
      ++ keyPointsLines (cleanDoc (parse (fetch (r1.link.getD "No link"))))
      ++ ["#### Summary of Content:\n",
          contentSummary (cleanDoc (parse (fetch (r1.link.getD "No link")))),
          "\n---\n"] := by
    simp [sourceSection, hok]
    congr 1
  refine ⟨?_, ?_, ?_, ?_⟩
  · apply mem_reportLines_of_mem_detail
    refine ⟨sourceSection parse fetch 0 r0, by simp [hdet], ?_⟩
    rw [hS0]
    simp
  · apply mem_reportLines_of_mem_detail
    refine ⟨sourceSection parse fetch 1 r1, by simp [hdet], ?_⟩
    rw [hS1]
    simp
  · intro l hl
    apply mem_reportLines_of_mem_detail
    refine ⟨sourceSection parse fetch 1 r1, by simp [hdet], ?_⟩
    rw [hS1]
    exact List.mem_append_left _ (List.mem_append_right _ hl)
  · apply mem_reportLines_of_mem_detail
    refine ⟨sourceSection parse fetch 1 r1, by simp [hdet], ?_⟩
    rw [hS1]
    simp

/-- A second concrete search result, fetched successfully in the witnesses. -/
def wr1 : SResult := ⟨some "T1", some "u1", some "s1"⟩

/-- A fetch oracle that fails on `u0` and succeeds elsewhere. -/
def wFetch : String → String := fun u => if u == "u0" then "Error down" else "<html>"

/-- A parse oracle giving the successful page a heading and a content div. -/
def wParse : String → Doc := fun s =>
  if s == "<html>" then
    [⟨"h1", none, none, "Alpha Beta"⟩, ⟨"div", some "content", none, "Body text here"⟩]
  else []

/-- Witness for C4: source 1 fails, source 2 succeeds, and the report keeps
    both the failure line and source 2's content. -/
theorem single_failure_resilience_witness :
    ("Could not access this page: " ++ "Error down" ++ "\n")
      ∈ reportLines wParse wFetch [wr0, wr1] "t" 2 ∧
    "#### Key Points:\n" ∈ reportLines wParse wFetch [wr0, wr1] "t" 2 ∧
    contentSummary (cleanDoc (wParse "<html>"))
      ∈ reportLines wParse wFetch [wr0, wr1] "t" 2 :=
  ⟨(single_failure_resilience wParse wFetch wr0 wr1 [] "t" 2 (by decide) (by decide)
      (by decide)).1,
   (single_failure_resilience wParse wFetch wr0 wr1 [] "t" 2 (by decide) (by decide)
      (by decide)).2.1,
   (single_failure_resilience wParse wFetch wr0 wr1 [] "t" 2 (by decide) (by decide)
      (by decide)).2.2.2⟩

/-! ### Claim C9 -/

/-- Claim C9: fetch success versus failure is discriminated solely by the
    `"Error"` prefix of the returned body string, so a successfully fetched
    body that itself begins with `"Error"` is returned raw and unparsed by
    `fetch_and_parse_webpage` for every extraction type, and `deep_research`
    reports that source with only the "Could not access this page" line
    instead of extracting its headings and summary. -/
theorem error_prefix_is_failure (parse : String → Doc) (fetch : String → String)
    (body ty : String) (i : Nat) (r : SResult)
    (hb : pyStartsWith body "Error" = true)
    (hf : fetch (r.link.getD "No link") = body) :
    fetch_and_parse_webpage parse body ty = body ∧
    sourceSection parse fetch i r =
      ["### Source " ++ toString (i + 1) ++ ": " ++ r.title.getD "No title",
       "URL: " ++ r.link.getD "No link" ++ "\n",
       "Could not access this page: " ++ body ++ "\n"] := by
  constructor
  · simp [fetch_and_parse_webpage, hb]
  · simp [sourceSection, hf, hb]

/-- A fetch oracle returning a body that starts with the word `Error` even
    though the HTTP fetch succeeded. -/
def fetchErrorBody : String → String := fun _ => "Error codes in HTTP: a reference"

/-- Witness for C9: a page whose body text opens with `"Error"` is treated
    as a failed fetch. -/
theorem error_prefix_is_failure_witness :
    fetch_and_parse_webpage parseNothing "Error codes in HTTP: a reference" "headings" =
      "Error codes in HTTP: a reference" ∧
    sourceSection parseNothing fetchErrorBody 0 wr0 =
      ["### Source " ++ toString (0 + 1) ++ ": " ++ "T0",
       "URL: " ++ "u0" ++ "\n",
       "Could not access this page: " ++ "Error codes in HTTP: a reference" ++ "\n"] :=
  ⟨(error_prefix_is_failure parseNothing fetchErrorBody
      "Error codes in HTTP: a reference" "headings" 0 wr0 (by decide) rfl).1,
   (error_prefix_is_failure parseNothing fetchErrorBody
      "Error codes in HTTP: a reference" "headings" 0 wr0 (by decide) rfl).2⟩

/-! ### Claim C10 -/

/-- Claim C10: in every successfully fetched `deep_research` source section,
    the Summary of Content line is `contentSummary` of the cleaned page, and
    `contentSummary` always ends with the ellipsis marker `"..."` — appended
    unconditionally in both the main-content and the whole-page branch — and
    never exceeds 503 characters. -/
theorem summary_ellipsis_unconditional (parse : String → Doc) (fetch : String → String)
    (i : Nat) (r : SResult)
    (hok : pyStartsWith (fetch (r.link.getD "No link")) "Error" = false) :
    sourceSection parse fetch i r =
      ["### Source " ++ toString (i + 1) ++ ": " ++ r.title.getD "No title",
       "URL: " ++ r.link.getD "No link" ++ "\n",
       "#### Key Points:\n"]
      ++ keyPointsLines (cleanDoc (parse (fetch (r.link.getD "No link"))))
      ++ ["#### Summary of Content:\n",
          contentSummary (cleanDoc (parse (fetch (r.link.getD "No link")))),
          "\n---\n"] ∧
    (∀ soup : Doc, pyLen (contentSummary soup) ≤ 503 ∧
      ∃ t', contentSummary soup = t' ++ "...") := by
  constructor
  · simp [sourceSection, hok]
  · intro soup
    have h3 : pyLen "..." = 3 := rfl
    unfold contentSummary
    cases hm : soup.filter classMatch with
    | nil =>
      refine ⟨?_, ⟨_, rfl⟩⟩
      rw [strLen_append, pyTake_len]
      omega
    | cons e es =>
      refine ⟨?_, ⟨_, rfl⟩⟩
      rw [strLen_append, pyTake_len]
      omega

/-- Witness for C10: the successful source of the concrete scenario gets a
    summary that is its short main-content text plus the unconditional
    ellipsis, well under 503 characters. -/
theorem summary_ellipsis_unconditional_witness :
    pyLen (contentSummary (cleanDoc (wParse "<html>"))) ≤ 503 ∧
    contentSummary (cleanDoc (wParse "<html>")) = "Body text here..." :=
  ⟨((summary_ellipsis_unconditional wParse wFetch 0 wr1 (by decide)).2
      (cleanDoc (wParse "<html>"))).1,
   by decide⟩
